import Mathlib

/-!
Shallow embedding of `manage_repos/trackchanges.py`: the commit Summarizer
(`format_log_entries`), the Entry Composer (`create_changes_entry`,
`create_dummy_changes_entry`), the tag-resolution logic of `record_changes`,
and the `cd` context manager.  The git command-line tool and the clock are
external collaborators; they enter the model as data (a list of commit
records, a tag-existence oracle, a date string).
-/

/-- Whitespace predicate used to model the default character set of the
Python `str.strip` / `str.rstrip` / `str.lstrip` methods. -/
def WS (c : Char) : Bool := c.isWhitespace

/-- Python `str.lstrip()` on the character list. -/
def pyLstripL (l : List Char) : List Char := l.dropWhile WS

/-- Python `str.rstrip()` on the character list. -/
def pyRstripL (l : List Char) : List Char := (l.reverse.dropWhile WS).reverse

/-- Python `str.strip()` on the character list. -/
def pyStripL (l : List Char) : List Char := pyRstripL (pyLstripL l)

/-- Python `str.strip()`. -/
def pyStrip (s : String) : String := ⟨pyStripL s.toList⟩

/-- Python `str.rstrip()`. -/
def pyRstrip (s : String) : String := ⟨pyRstripL s.toList⟩

/-- Python `str.lstrip()`. -/
def pyLstrip (s : String) : String := ⟨pyLstripL s.toList⟩

/-- Python `str.split(sep)` for a one-character separator: no run collapsing,
`"a:b"` gives `["a", "b"]` and `":"` gives `["", ""]`. -/
def splitOnChar (sep : Char) : List Char → List (List Char)
  | [] => [[]]
  | c :: rest =>
    match splitOnChar sep rest with
    | [] => if c = sep then [[], []] else [[c]]
    | g :: gs => if c = sep then [] :: g :: gs else (c :: g) :: gs

/-- Python substring membership `pat in l` (the `in` operator on `str`). -/
def isSubstring (pat : List Char) : List Char → Bool
  | [] => pat.isEmpty
  | c :: rest => pat.isPrefixOf (c :: rest) || isSubstring pat rest

/-- A commit as the git oracle presents it: its hash, the raw stdout of
`git show -s --pretty=format:%s` (the subject), and the lines of the raw
stdout of `git show` (the body the BUG: scan runs over). -/
structure Commit where
  hash : String
  subject : String
  show_output : List String
  deriving DecidableEq

/-- `CHANGES_ENTRY = "  * {subject} {bugs}"` from the source. -/
def CHANGES_ENTRY (subject bugs : String) : String :=
  "  * " ++ subject ++ " " ++ bugs

/-- `BASE_URL` from the source. -/
def BASE_URL : String := "https://www.kde.org/announcements/"

/-- `URL_MAPPING` from the source, with the dictionary lookup modelled as an
`Option` (a missing key is Python's `KeyError`) and the `.format` of the
template applied to `version_to`. -/
def URL_MAPPING (kind version_to : String) : Option String :=
  if kind = "plasma" then some ("plasma-" ++ version_to ++ ".php")
  else if kind = "frameworks" then some ("kde-frameworks-" ++ version_to ++ ".php")
  else if kind = "applications" then some ("announce-applications-" ++ version_to ++ ".php")
  else none

/-- `CHANGES_TEMPLATE` from the source, with the two `.format` fields and the
body interpolated (67-dash separator line, date and committer line, blank
line, contents, trailing newline; the template starts with a newline). -/
def CHANGES_TEMPLATE (date committer contents : String) : String :=
  "\n-------------------------------------------------------------------\n"
    ++ date ++ " - " ++ committer ++ "\n\n" ++ contents ++ "\n"

/-- The test `"GIT_SILENT" in subject or "SVN_SILENT" in subject` from
`format_log_entries`. -/
def isSilent (subject : String) : Bool :=
  isSubstring "GIT_SILENT".toList subject.toList
    || isSubstring "SVN_SILENT".toList subject.toList

/-- The body of the per-commit loop of `format_log_entries`: strip the
subject, skip silent commits, collect `BUG:` lines of the `git show` output
as `"kde#" ++ line.split(":")[1]`, comma-join and parenthesize them when
present, and yield the rstripped `CHANGES_ENTRY`.  Returns `none` when the
loop yields nothing for this commit. -/
def processCommit (c : Commit) : Option String :=
  let subject := pyStrip c.subject
  if isSilent subject then none
  else
    let bug_content :=
      (c.show_output.filter (fun line => List.isPrefixOf "BUG:".toList line.toList)).map
        (fun line => "kde#" ++ (⟨(splitOnChar ':' line.toList).getD 1 []⟩ : String))
    let bugs :=
      if bug_content.isEmpty then ""
      else "(" ++ String.intercalate ", " bug_content ++ ")"
    some (pyRstrip (CHANGES_ENTRY subject bugs))

/-- `format_log_entries` over the commit list the git oracle returns for the
range: yield the single placeholder for an empty range, the single
truncation placeholder for a range of more than 30 commits, and otherwise
the per-commit lines. -/
def format_log_entries (all_commits : List Commit) : List String :=
  if all_commits.isEmpty then ["  * None"]
  else if all_commits.length > 30 then ["  * Too many changes to list here"]
  else all_commits.filterMap processCommit

/-- Python truthiness of an optional list argument (the default `None` and
the empty list are both falsy). -/
def pyTruthy : Option (List String) → Bool
  | none => false
  | some l => !l.isEmpty

/-- `_add_patch_information` from the source: a no-op when `patches` or
`contents` is empty, otherwise the label line followed by one
`CHANGES_ENTRY` line per patch (with the empty `bugs` field, so each patch
line keeps its trailing space). -/
def _add_patch_information (contents patches : List String) (text : String) :
    List String :=
  if patches.isEmpty || contents.isEmpty then contents
  else contents ++ text :: patches.map (fun patch => CHANGES_ENTRY patch "")

/-- The `contents` list built by `create_changes_entry` before it is joined
with newlines: update notice, release-kind note, the announcement-URL pair
when `kind` is not the literal "other" (`none` models the `KeyError` when
`kind` is also not a key of `URL_MAPPING`), the changes-since line, the
Summarizer lines (or the "  * None" fallback when the Summarizer yielded
nothing), and the patch-difference section.  The Python set difference
`set(current) - set(previous)` is modelled as a deduplicated filtered list
(its iteration order in Python is unspecified). -/
def create_changes_contents (commits : List Commit)
    (version_from version_to changetype kind : String)
    (previous_patches current_patches : Option (List String)) :
    Option (List String) :=
  let c0 := ["- Update to " ++ version_to,
             "  * New " ++ changetype ++ " release"]
  let c1? : Option (List String) :=
    if kind ≠ "other" then
      match URL_MAPPING kind version_to with
      | some url => some (c0 ++ ["  * For more details please see:",
                                 "  * " ++ (BASE_URL ++ url)])
      | none => none
    else some c0
  match c1? with
  | none => none
  | some c1 =>
    let c2 := c1 ++ ["- Changes since " ++ version_from ++ ":"]
    let commit_data := format_log_entries commits
    let c3 := if commit_data.isEmpty then c2 ++ ["  * None"] else c2 ++ commit_data
    let prev := previous_patches.getD []
    let cur := current_patches.getD []
    let patches_difference :=
      if pyTruthy current_patches && pyTruthy previous_patches then
        (cur.filter (fun p => !prev.contains p)).dedup
      else []
    if patches_difference.isEmpty then some c3
    else
      let added_patches := patches_difference.filter (fun p => cur.contains p)
      let removed_patches := patches_difference.filter
        (fun p => !cur.contains p && prev.contains p)
      -- as in the source: removed_patches is built but never passed on;
      -- both label sections receive added_patches
      let _ := removed_patches
      some (_add_patch_information
              (_add_patch_information c3 added_patches "- Added patches:")
              added_patches "- Removed patches:")

/-- The `fileinput(..., inplace=True)` loop shared by both writers: iterate
over the pre-existing lines, print the entry block before the first one,
and re-print every pre-existing line through `proc`.  A file with no lines
iterates zero times, so nothing at all is written. -/
def rewriteWith (entry : String) (proc : String → String) : List String → String
  | [] => ""
  | l :: ls => entry ++ "\n" ++ String.join ((l :: ls).map (fun x => proc x ++ "\n"))

/-- `create_changes_entry` from the source, as the new content of the
destination file (`oldLines` are its pre-existing lines, `date` stands for
`time.strftime(...)`); `none` models the `KeyError` on an unknown `kind`.
The template is lstripped before formatting, and pre-existing lines pass
through `line.rstrip()`.  `repo_name` is unused, as in the source. -/
def create_changes_entry (repo_name : String) (commits : List Commit)
    (version_from version_to changetype kind : String)
    (date committer : String)
    (previous_patches current_patches : Option (List String))
    (oldLines : List String) : Option String :=
  let _ := repo_name
  (create_changes_contents commits version_from version_to changetype kind
      previous_patches current_patches).map
    (fun contents =>
      let changes_entry :=
        pyLstrip (CHANGES_TEMPLATE date committer (String.intercalate "\n" contents))
      rewriteWith changes_entry pyRstrip oldLines)

/-- `create_dummy_changes_entry` from the source: the single-line body under
the (not lstripped) template, with pre-existing lines passed through
`line.strip()`.  `kind` is unused, as in the source. -/
def create_dummy_changes_entry (version_to kind : String)
    (date committer : String) (oldLines : List String) : String :=
  let _ := kind
  let contents := "  * Update to " ++ version_to
  let changes_entry := CHANGES_TEMPLATE date committer contents
  rewriteWith changes_entry pyStrip oldLines

/-- Python `str.replace(pat, repl)`: replace every non-overlapping
occurrence left to right (fuel-recursive; the fuel is the input length,
which suffices whenever `pat` is non-empty). -/
def replaceAux (pat repl : List Char) : Nat → List Char → List Char
  | _, [] => []
  | 0, l => l
  | fuel + 1, c :: rest =>
    if pat.isPrefixOf (c :: rest) then
      repl ++ replaceAux pat repl fuel ((c :: rest).drop pat.length)
    else c :: replaceAux pat repl fuel rest

/-- Python `str.replace` on strings. -/
def pyReplace (s pat repl : String) : String :=
  ⟨replaceAux pat.toList repl.toList s.toList.length s.toList⟩

/-- The call `record_changes` ends up making for its package: either the
degraded dummy entry or the full entry with a resolved commit range. -/
inductive ChangesCall where
  | dummyEntry (version_to : String)
  | fullEntry (commit_from commit_to : String)
  deriving DecidableEq

/-- The dispatch and tag-resolution logic of `record_changes`:
`package_name` is the changes-file name with every occurrence of
".changes" replaced away; a missing checkout directory or missing upstream
checkout selects the dummy entry; otherwise, when tag `v{version_to}` is
unavailable, the range upper bound becomes "KDE/4.14" for the package
"kdelibs4" and the caller-supplied branch for every other package.
`tag_available` models `upstream_tag_available` (a git oracle). -/
def record_changes (changes_file : String)
    (has_checkout_dir upstream_repo_exists : Bool)
    (tag_available : String → Bool)
    (version_from version_to branch : String) : ChangesCall :=
  let package_name := pyReplace changes_file ".changes" ""
  let commit_from := "v" ++ version_from
  let commit_to := "v" ++ version_to
  if !has_checkout_dir then .dummyEntry version_to
  else if !upstream_repo_exists then .dummyEntry version_to
  else if !tag_available commit_to then
    if package_name = "kdelibs4" then .fullEntry commit_from "KDE/4.14"
    else .fullEntry commit_from branch
  else .fullEntry commit_from commit_to

/-- `os.chdir` on the working-directory state. -/
def chdir (p : String) (_s : String) : String := p

/-- The `cd` context manager: remember the old working directory, chdir into
`old / subpath`, run the body (which may itself chdir and may end in an
exception, modelled by an `Except` result paired with the directory state
it leaves behind), and in the `finally` block chdir back unconditionally. -/
def cd {ε α : Type} (subpath : String)
    (body : String → Except ε α × String) (cwd : String) :
    Except ε α × String :=
  let old_path := cwd
  let s1 := chdir (old_path ++ "/" ++ subpath) cwd
  ((body s1).1, chdir old_path (body s1).2)

theorem isPrefixOf_eq_true_iff (pat l : List Char) :
    pat.isPrefixOf l = true ↔ ∃ t, l = pat ++ t := by
  induction pat generalizing l with
  | nil => simp [List.isPrefixOf]
  | cons a r ih =>
    cases l with
    | nil => simp [List.isPrefixOf]
    | cons b rest =>
      simp only [List.isPrefixOf, Bool.and_eq_true, beq_iff_eq, ih,
        List.cons_append, List.cons.injEq]
      constructor
      · rintro ⟨rfl, t, rfl⟩
        exact ⟨t, rfl, rfl⟩
      · rintro ⟨t, rfl, rfl⟩
        exact ⟨rfl, t, rfl⟩

theorem isSubstring_eq_true_iff (pat l : List Char) :
    isSubstring pat l = true ↔ ∃ u v, l = u ++ pat ++ v := by
  induction l with
  | nil =>
    simp only [isSubstring, List.isEmpty_iff]
    constructor
    · rintro rfl
      exact ⟨[], [], rfl⟩
    · rintro ⟨u, v, h⟩
      rcases List.append_eq_nil.mp h.symm with ⟨h1, h2⟩
      rcases List.append_eq_nil.mp h1 with ⟨-, h3⟩
      exact h3
  | cons b rest ih =>
    simp only [isSubstring, Bool.or_eq_true, isPrefixOf_eq_true_iff, ih]
    constructor
    · rintro (⟨t, h⟩ | ⟨u, v, rfl⟩)
      · exact ⟨[], t, by simpa using h⟩
      · exact ⟨b :: u, v, rfl⟩
    · rintro ⟨u, v, h⟩
      cases u with
      | nil =>
        exact Or.inl ⟨v, by simpa using h⟩
      | cons x u' =>
        rw [List.cons_append, List.cons_append, List.cons.injEq] at h
        exact Or.inr ⟨u', v, h.2⟩

theorem dropWhileWS_of_surround (a : Char) (r u v : List Char) (ha : WS a = false) :
    ∃ u', (u ++ (a :: r) ++ v).dropWhile WS = u' ++ (a :: r) ++ v := by
  induction u with
  | nil =>
    refine ⟨[], ?_⟩
    simp [List.dropWhile_cons, ha]
  | cons b u' ih =>
    by_cases hb : WS b = true
    · simpa [List.dropWhile_cons, hb] using ih
    · refine ⟨b :: u', ?_⟩
      simp [List.dropWhile_cons, hb]

theorem isSubstring_reverse (pat l : List Char) (h : isSubstring pat l = true) :
    isSubstring pat.reverse l.reverse = true := by
  rw [isSubstring_eq_true_iff] at h ⊢
  obtain ⟨u, v, rfl⟩ := h
  exact ⟨v.reverse, u.reverse, by simp⟩

theorem isSubstring_dropWhileWS (pat l : List Char) (a : Char) (r : List Char)
    (hp : pat = a :: r) (ha : WS a = false) (h : isSubstring pat l = true) :
    isSubstring pat (l.dropWhile WS) = true := by
  subst hp
  rw [isSubstring_eq_true_iff] at h ⊢
  obtain ⟨u, v, rfl⟩ := h
  obtain ⟨u', hu⟩ := dropWhileWS_of_surround a r u v ha
  exact ⟨u', v, hu⟩

theorem isSubstring_pyStripL (pat l : List Char) (a b : Char) (ra rb : List Char)
    (hp : pat = a :: ra) (hq : pat.reverse = b :: rb)
    (ha : WS a = false) (hb : WS b = false)
    (h : isSubstring pat l = true) :
    isSubstring pat (pyStripL l) = true := by
  have h1 : isSubstring pat (pyLstripL l) = true := by
    unfold pyLstripL
    exact isSubstring_dropWhileWS pat l a ra hp ha h
  have h2 := isSubstring_reverse pat (pyLstripL l) h1
  have h3 := isSubstring_dropWhileWS pat.reverse (pyLstripL l).reverse b rb hq hb h2
  have h4 := isSubstring_reverse pat.reverse ((pyLstripL l).reverse.dropWhile WS) h3
  rw [List.reverse_reverse] at h4
  simpa [pyStripL, pyRstripL] using h4

theorem isSilent_pyStrip_of_marker (s : String)
    (h : isSubstring "GIT_SILENT".toList s.toList = true ∨
         isSubstring "SVN_SILENT".toList s.toList = true) :
    isSilent (pyStrip s) = true := by
  unfold isSilent pyStrip
  show (isSubstring "GIT_SILENT".toList (pyStripL s.toList)
      || isSubstring "SVN_SILENT".toList (pyStripL s.toList)) = true
  rw [Bool.or_eq_true]
  cases h with
  | inl hg =>
    exact Or.inl (isSubstring_pyStripL "GIT_SILENT".toList s.toList 'G' 'T'
      "IT_SILENT".toList "NELIS_TIG".toList (by decide) (by decide)
      (by decide) (by decide) hg)
  | inr hs =>
    exact Or.inr (isSubstring_pyStripL "SVN_SILENT".toList s.toList 'S' 'T'
      "VN_SILENT".toList "NELIS_NVS".toList (by decide) (by decide)
      (by decide) (by decide) hs)

/-- Claim C1: the source computes the patch difference in one direction only
(current minus previous) and passes added_patches to both the
"- Added patches:" and "- Removed patches:" sections, so at the input with
previous_patches = [old.patch] and current_patches = [new.patch] the removed
patch "old.patch" appears nowhere while "new.patch" is listed under both
labels.  The evaluation exhibits the divergence from the claim. -/
theorem c1_patch_sections_code_bug :
    create_changes_contents [] "1.0" "2.0" "bugfix" "other"
      (some ["old.patch"]) (some ["new.patch"]) =
    some ["- Update to 2.0", "  * New bugfix release", "- Changes since 1.0:",
          "  * None", "- Added patches:", "  * new.patch ",
          "- Removed patches:", "  * new.patch "] ∧
    (["- Update to 2.0", "  * New bugfix release", "- Changes since 1.0:",
      "  * None", "- Added patches:", "  * new.patch ",
      "- Removed patches:", "  * new.patch "].all
        (fun line => !isSubstring "old.patch".toList line.toList)) = true :=
  ⟨rfl, by decide⟩

/-- Claim C2: for a commit whose body contains the line "BUG: 12345", the
yielded line ends with "(kde# 12345)" and not with "(kde#12345)": the source
takes `line.split(":")[1]`, which keeps the space after the colon, even
though its own comment promises the normalized form kde#NNNN. -/
theorem c2_bug_reference_code_bug :
    processCommit ⟨"abc123", "Fix crash", ["BUG: 12345"]⟩ =
      some "  * Fix crash (kde# 12345)" ∧
    List.isSuffixOf "(kde# 12345)".toList "  * Fix crash (kde# 12345)".toList = true ∧
    List.isSuffixOf "(kde#12345)".toList "  * Fix crash (kde# 12345)".toList = false :=
  ⟨rfl, by decide, by decide⟩

/-- Claim C3 counterexample: the kind "feature" is neither a mapping key nor
the literal "other", and create_changes_entry does not complete normally on
it: the URL_MAPPING lookup fails (Python KeyError, modelled as none). -/
theorem c3_unknown_kind_counterexample :
    create_changes_entry "repo" [] "1.0" "2.0" "bugfix" "feature" "D" "C"
      none none ["x"] = none := rfl

/-- Claim C3 as amended: only the literal kind "other" skips the
announcement-URL section and completes normally; a kind outside the three
mapping keys and "other" makes create_changes_entry fail with a key-lookup
error instead of being treated as valid. -/
theorem c3_unknown_kind_amended (kind : String)
    (h : kind ≠ "plasma" ∧ kind ≠ "frameworks" ∧ kind ≠ "applications" ∧ kind ≠ "other")
    (repo_name : String) (commits : List Commit)
    (version_from version_to changetype date committer : String)
    (previous_patches current_patches : Option (List String)) (oldLines : List String) :
    create_changes_entry repo_name commits version_from version_to changetype kind
      date committer previous_patches current_patches oldLines = none ∧
    (create_changes_entry repo_name commits version_from version_to changetype "other"
      date committer previous_patches current_patches oldLines).isSome = true := by
  constructor
  · simp [create_changes_entry, create_changes_contents, URL_MAPPING,
      h.1, h.2.1, h.2.2.1, h.2.2.2]
  · simp only [create_changes_entry, create_changes_contents]
    simp only [ne_eq, not_true_eq_false, if_false, reduceIte]
    split <;> first | rfl | (split <;> rfl)

/-- Witness for claim C3's amended theorem at kind = "feature". -/
theorem c3_unknown_kind_witness :
    create_changes_entry "repo" [] "1.0" "2.0" "bugfix" "feature" "D" "C"
      none none ["x"] = none ∧
    (create_changes_entry "repo" [] "1.0" "2.0" "bugfix" "other" "D" "C"
      none none ["x"]).isSome = true :=
  c3_unknown_kind_amended "feature" (by decide) "repo" [] "1.0" "2.0" "bugfix"
    "D" "C" none none ["x"]

/-- Claim C4 counterexample: on the dummy write path a pre-existing line
"  old  " is written back as "old": create_dummy_changes_entry strips
leading whitespace too, so pre-existing lines are not preserved
byte-for-byte up to trailing-whitespace trimming (which would give
"  old"). -/
theorem c4_write_paths_counterexample :
    create_dummy_changes_entry "2.0" "applications" "D" "C" ["  old  "] =
      CHANGES_TEMPLATE "D" "C" "  * Update to 2.0" ++ "\n" ++ "old\n" ∧
    pyRstrip "  old  " = "  old" ∧
    create_dummy_changes_entry "2.0" "applications" "D" "C" ["  old  "] ≠
      CHANGES_TEMPLATE "D" "C" "  * Update to 2.0" ++ "\n" ++ "  old\n" :=
  ⟨rfl, rfl, by decide⟩

/-- Claim C4 as amended: for a non-empty destination file the new block is
written before all pre-existing content on both paths; create_changes_entry
preserves every pre-existing line up to trailing-whitespace trimming, but
create_dummy_changes_entry strips each pre-existing line of leading and
trailing whitespace. -/
theorem c4_write_paths_amended (repo_name : String) (commits : List Commit)
    (version_from version_to changetype kind date committer : String)
    (previous_patches current_patches : Option (List String))
    (contents : List String) (l : String) (ls : List String)
    (h : create_changes_contents commits version_from version_to changetype kind
      previous_patches current_patches = some contents) :
    create_changes_entry repo_name commits version_from version_to changetype kind
      date committer previous_patches current_patches (l :: ls) =
      some (pyLstrip (CHANGES_TEMPLATE date committer (String.intercalate "\n" contents))
        ++ "\n" ++ String.join ((l :: ls).map (fun x => pyRstrip x ++ "\n"))) ∧
    create_dummy_changes_entry version_to kind date committer (l :: ls) =
      CHANGES_TEMPLATE date committer ("  * Update to " ++ version_to)
        ++ "\n" ++ String.join ((l :: ls).map (fun x => pyStrip x ++ "\n")) := by
  constructor
  · simp [create_changes_entry, h, rewriteWith]
  · rfl

/-- Witness for claim C4's amended theorem at a concrete two-line file. -/
theorem c4_write_paths_witness :
    create_changes_entry "repo" [] "1.0" "2.0" "bugfix" "other" "D" "C"
      none none ["a ", " b"] =
      some (pyLstrip (CHANGES_TEMPLATE "D" "C" (String.intercalate "\n"
          ["- Update to 2.0", "  * New bugfix release", "- Changes since 1.0:", "  * None"]))
        ++ "\n" ++ String.join ((["a ", " b"]).map (fun x => pyRstrip x ++ "\n"))) ∧
    create_dummy_changes_entry "2.0" "other" "D" "C" ["a ", " b"] =
      CHANGES_TEMPLATE "D" "C" ("  * Update to " ++ "2.0")
        ++ "\n" ++ String.join ((["a ", " b"]).map (fun x => pyStrip x ++ "\n")) :=
  c4_write_paths_amended "repo" [] "1.0" "2.0" "bugfix" "other" "D" "C" none none
    ["- Update to 2.0", "  * New bugfix release", "- Changes since 1.0:", "  * None"]
    "a " [" b"] rfl

/-- Claim C5 counterexample: a range with one GIT_SILENT commit has zero
qualifying commits (the commit produces no line), yet format_log_entries
yields zero lines, not the single "  * None" placeholder. -/
theorem c5_none_placeholder_counterexample :
    processCommit ⟨"h1", "GIT_SILENT made messages", []⟩ = none ∧
    format_log_entries [⟨"h1", "GIT_SILENT made messages", []⟩] = [] ∧
    format_log_entries [⟨"h1", "GIT_SILENT made messages", []⟩] ≠ ["  * None"] :=
  ⟨rfl, rfl, by decide⟩

/-- Claim C5 as amended: the single "  * None" placeholder is yielded
exactly when the commit-hash list of the range is empty (a non-empty range
whose commits are all silent yields no lines at all). -/
theorem c5_none_placeholder_amended : format_log_entries [] = ["  * None"] := rfl

/-- Claim C6: a range of more than 30 commits yields exactly the one
truncation placeholder line, whatever the commits contain. -/
theorem c6_too_many_changes (commits : List Commit) (h : 30 < commits.length) :
    format_log_entries commits = ["  * Too many changes to list here"] := by
  have h1 : ¬ (commits.isEmpty = true) := by
    cases commits with
    | nil => simp at h
    | cons a l => simp
  unfold format_log_entries
  rw [if_neg h1, if_pos h]

/-- Witness for claim C6 at a concrete 31-commit range. -/
theorem c6_too_many_changes_witness :
    30 < (List.replicate 31 (Commit.mk "h" "subject" [])).length ∧
    format_log_entries (List.replicate 31 (Commit.mk "h" "subject" [])) =
      ["  * Too many changes to list here"] :=
  ⟨by simp, c6_too_many_changes (List.replicate 31 (Commit.mk "h" "subject" [])) (by simp)⟩

/-- Claim C7: in a non-empty range of at most 30 commits the yielded lines
are the per-commit results, and a commit whose subject contains GIT_SILENT
or SVN_SILENT contributes none (the markers survive the strip of the
subject, so the silent test fires). -/
theorem c7_silent_commit_skipped (commits : List Commit) (c : Commit)
    (hne : commits ≠ []) (hlen : commits.length ≤ 30) (_hmem : c ∈ commits)
    (hsil : isSubstring "GIT_SILENT".toList c.subject.toList = true ∨
            isSubstring "SVN_SILENT".toList c.subject.toList = true) :
    format_log_entries commits = commits.filterMap processCommit ∧
    processCommit c = none := by
  refine ⟨?_, ?_⟩
  · have h1 : ¬ (commits.isEmpty = true) := by simpa using hne
    have h2 : ¬ (commits.length > 30) := by omega
    unfold format_log_entries
    rw [if_neg h1, if_neg h2]
  · simp [processCommit, isSilent_pyStrip_of_marker c.subject hsil]

/-- Witness for claim C7 at a concrete two-commit range with one silent
commit. -/
theorem c7_silent_commit_skipped_witness :
    format_log_entries
        [Commit.mk "h1" "GIT_SILENT made messages" [], Commit.mk "h2" "Fix crash" []] =
      [Commit.mk "h1" "GIT_SILENT made messages" [],
       Commit.mk "h2" "Fix crash" []].filterMap processCommit ∧
    processCommit (Commit.mk "h1" "GIT_SILENT made messages" []) = none :=
  c7_silent_commit_skipped
    [Commit.mk "h1" "GIT_SILENT made messages" [], Commit.mk "h2" "Fix crash" []]
    (Commit.mk "h1" "GIT_SILENT made messages" [])
    (by decide) (by decide) (by decide) (Or.inl (by decide))

/-- Claim C8: with the checkout present and the tag for version_to absent,
record_changes resolves the range upper bound to "KDE/4.14" exactly when
the package identity (the changes-file name with ".changes" removed) is
"kdelibs4", and to the caller-supplied branch otherwise. -/
theorem c8_kdelibs4_fallback (changes_file version_from version_to branch : String)
    (tag_available : String → Bool)
    (htag : tag_available ("v" ++ version_to) = false) :
    (pyReplace changes_file ".changes" "" = "kdelibs4" →
      record_changes changes_file true true tag_available version_from version_to branch =
        ChangesCall.fullEntry ("v" ++ version_from) "KDE/4.14") ∧
    (pyReplace changes_file ".changes" "" ≠ "kdelibs4" →
      record_changes changes_file true true tag_available version_from version_to branch =
        ChangesCall.fullEntry ("v" ++ version_from) branch) := by
  constructor
  · intro hpkg
    simp [record_changes, htag, hpkg]
  · intro hpkg
    simp [record_changes, htag, hpkg]

/-- Witness for claim C8 at the packages kdelibs4 and ark with an oracle
under which no tag exists. -/
theorem c8_kdelibs4_fallback_witness :
    record_changes "kdelibs4.changes" true true (fun _ => false) "1.0" "2.0" "master" =
      ChangesCall.fullEntry "v1.0" "KDE/4.14" ∧
    record_changes "ark.changes" true true (fun _ => false) "1.0" "2.0" "master" =
      ChangesCall.fullEntry "v1.0" "master" :=
  ⟨(c8_kdelibs4_fallback "kdelibs4.changes" "1.0" "2.0" "master" (fun _ => false) rfl).1 rfl,
   (c8_kdelibs4_fallback "ark.changes" "1.0" "2.0" "master" (fun _ => false) rfl).2 (by decide)⟩

/-- Claim C9: the cd context manager restores the previous working
directory on every exit path: whatever the body does to the directory
state and whether it ends in a value or an exception, the final working
directory equals the one from before entry, and the body's outcome is
passed through unchanged. -/
theorem c9_cd_restores_cwd {ε α : Type} (subpath : String)
    (body : String → Except ε α × String) (cwd : String) :
    (cd subpath body cwd).2 = cwd ∧
    (cd subpath body cwd).1 = (body (chdir (cwd ++ "/" ++ subpath) cwd)).1 :=
  ⟨rfl, rfl⟩

/-- Claim C10: on a destination file with zero lines both writers emit
nothing: the dummy writer returns the empty file, and the full writer
returns the empty file whenever its contents computation succeeds (the
composed block is discarded because output is only printed while iterating
over existing lines). -/
theorem c10_empty_file_discards_entry (repo_name : String) (commits : List Commit)
    (version_from version_to changetype kind date committer : String)
    (previous_patches current_patches : Option (List String)) :
    create_changes_entry repo_name commits version_from version_to changetype kind
        date committer previous_patches current_patches [] =
      (create_changes_contents commits version_from version_to changetype kind
        previous_patches current_patches).map (fun _ => "") ∧
    create_dummy_changes_entry version_to kind date committer [] = "" := by
  refine ⟨?_, rfl⟩
  simp only [create_changes_entry]
  cases hc : create_changes_contents commits version_from version_to changetype kind
      previous_patches current_patches with
  | none => rfl
  | some c => rfl
